import Mathlib

/-!
# Verification of the `lv03` Swiss coordinate library

A shallow embedding of `src/lib.rs` of the `lv03` crate: the coordinate
types `Wgs84`, `Lv03`, `Lv95`, the validity-checked constructors, the
projection formulas between LV03 and WGS84, the LV03/LV95 frame shifts,
and `distance_squared`.  The `f64` fields of the Rust structs are modelled
as exact rationals `ℚ`; every numeric literal of the source appears
verbatim.  A separate small model (`Fl`) of IEEE comparison semantics with
a NaN value is used for the claims that hinge on NaN behaviour of the
comparison operators in `Lv03::new`.
-/

namespace LvSpec

/-- WGS84 coordinate representation (struct `Wgs84` in the source). -/
structure Wgs84 where
  longitude : ℚ
  latitude : ℚ
  altitude : ℚ
  deriving DecidableEq, Repr

/-- Coordinate point in the Lv03 system (struct `Lv03` in the source). -/
structure Lv03 where
  north : ℚ
  east : ℚ
  altitude : ℚ
  deriving DecidableEq, Repr

/-- Coordinate point in the Lv95 system (struct `Lv95` in the source). -/
structure Lv95 where
  north : ℚ
  east : ℚ
  altitude : ℚ
  deriving DecidableEq, Repr

/-- `Lv03::new`: validity-checked constructor, mirroring the three
`if`/`else if` branches of the source. -/
def Lv03.new (north east altitude : ℚ) : Option Lv03 :=
  if north < 70000 ∨ east < 480000 then
    none
  else if north > 300000 ∨ east > 850000 then
    none
  else if north > east then
    none
  else
    some { north := north, east := east, altitude := altitude }

/-- `Wgs84::to_lv03`, with the `let` bindings of the source. -/
def Wgs84.to_lv03 (s : Wgs84) : Option Lv03 :=
  let phi := (3600 * s.latitude - 169028.66) / 10000
  let phi_2 := phi * phi
  let phi_3 := phi * phi_2
  let lambda := (3600 * s.longitude - 26782.5) / 10000
  let lambda_2 := lambda * lambda
  let lambda_3 := lambda * lambda_2
  let e := 2600072.37 + 211455.93 * lambda
      - 10938.51 * lambda * phi
      - 0.36 * lambda * phi_2
      - 44.54 * lambda_3
  let n := 1200147.07 + 308807.95 * phi + 3745.25 * lambda_2 + 76.63 * phi_2
      - 194.56 * lambda_2 * phi
      + 119.79 * phi_3
  let y := e - 2000000.00
  let x := n - 1000000.00
  let altitude := s.altitude - 49.55 + 2.73 * lambda + 6.94 * phi
  Lv03.new x y altitude

/-- `Lv03::to_wgs84`, with the `let` bindings of the source. -/
def Lv03.to_wgs84 (s : Lv03) : Wgs84 :=
  let y := (s.east - 600000) / 1000000
  let y_2 := y * y
  let y_3 := y * y_2
  let x := (s.north - 200000) / 1000000
  let x_2 := x * x
  let x_3 := x * x_2
  let lambda := 2.6779094 + 4.728982 * y + 0.791484 * y * x + 0.1306 * y * x_2 - 0.0436 * y_3
  let phi := 16.9023892 + 3.238272 * x
      - 0.270978 * y_2
      - 0.002528 * x_2
      - 0.0447 * y_2 * x
      - 0.0140 * x_3
  let altitude := s.altitude + 49.55 - 12.6 * y - 22.64 * x
  let lambda2 := lambda * 100 / 36
  let phi2 := phi * 100 / 36
  { longitude := lambda2, latitude := phi2, altitude := altitude }

/-- `Lv03::distance_squared`. -/
def Lv03.distance_squared (s p : Lv03) : ℚ :=
  let d_north := s.north - p.north
  let d_east := s.east - p.east
  let d_altitude := s.altitude - p.altitude
  d_north * d_north + d_east * d_east + d_altitude * d_altitude

/-- `impl From<Lv03> for Lv95`. -/
def Lv95.fromLv03 (p : Lv03) : Lv95 :=
  { north := p.north + 1000000, east := p.east + 2000000, altitude := p.altitude }

/-- `impl From<Lv95> for Lv03`. -/
def Lv03.fromLv95 (p : Lv95) : Lv03 :=
  { north := p.north - 1000000, east := p.east - 2000000, altitude := p.altitude }

/-- `Lv95::new`: delegates to `Lv03::new` and shifts on success. -/
def Lv95.new (north east altitude : ℚ) : Option Lv95 :=
  match Lv03.new north east altitude with
  | some p => some (Lv95.fromLv03 p)
  | none => none

/-- `Lv95::to_wgs84`: shift to Lv03, then project. -/
def Lv95.to_wgs84 (s : Lv95) : Wgs84 :=
  (Lv03.fromLv95 s).to_wgs84

/-! ## Spec-side formulas

Flat closed-form versions of the projection formulas, written from the
spec text (phi and lambda substituted into the polynomials), to be
compared with the `let`-structured source definitions. -/

/-- Spec formula for the northing `x = N − 1,000,000` computed by
`Wgs84::to_lv03`. -/
def lv03_north_spec (s : Wgs84) : ℚ :=
  1200147.07 + 308807.95 * ((3600 * s.latitude - 169028.66) / 10000)
    + 3745.25 * ((3600 * s.longitude - 26782.5) / 10000) ^ 2
    + 76.63 * ((3600 * s.latitude - 169028.66) / 10000) ^ 2
    - 194.56 * ((3600 * s.longitude - 26782.5) / 10000) ^ 2
      * ((3600 * s.latitude - 169028.66) / 10000)
    + 119.79 * ((3600 * s.latitude - 169028.66) / 10000) ^ 3
    - 1000000

/-- Spec formula for the easting `y = E − 2,000,000` computed by
`Wgs84::to_lv03`. -/
def lv03_east_spec (s : Wgs84) : ℚ :=
  2600072.37 + 211455.93 * ((3600 * s.longitude - 26782.5) / 10000)
    - 10938.51 * ((3600 * s.longitude - 26782.5) / 10000)
      * ((3600 * s.latitude - 169028.66) / 10000)
    - 0.36 * ((3600 * s.longitude - 26782.5) / 10000)
      * ((3600 * s.latitude - 169028.66) / 10000) ^ 2
    - 44.54 * ((3600 * s.longitude - 26782.5) / 10000) ^ 3
    - 2000000

/-- Spec formula for the altitude computed by `Wgs84::to_lv03`:
`altitude − 49.55 + 2.73·lambda + 6.94·phi`. -/
def lv03_alt_spec (s : Wgs84) : ℚ :=
  s.altitude - 49.55 + 2.73 * ((3600 * s.longitude - 26782.5) / 10000)
    + 6.94 * ((3600 * s.latitude - 169028.66) / 10000)

/-- Spec formula for the longitude computed by `Lv03::to_wgs84`:
the lambda polynomial in `y = (east − 600,000)/10^6`,
`x = (north − 200,000)/10^6`, scaled by `100/36`. -/
def wgs_longitude_spec (p : Lv03) : ℚ :=
  (2.6779094 + 4.728982 * ((p.east - 600000) / 1000000)
    + 0.791484 * ((p.east - 600000) / 1000000) * ((p.north - 200000) / 1000000)
    + 0.1306 * ((p.east - 600000) / 1000000) * ((p.north - 200000) / 1000000) ^ 2
    - 0.0436 * ((p.east - 600000) / 1000000) ^ 3) * 100 / 36

/-- Spec formula for the latitude computed by `Lv03::to_wgs84`:
the phi polynomial scaled by `100/36`. -/
def wgs_latitude_spec (p : Lv03) : ℚ :=
  (16.9023892 + 3.238272 * ((p.north - 200000) / 1000000)
    - 0.270978 * ((p.east - 600000) / 1000000) ^ 2
    - 0.002528 * ((p.north - 200000) / 1000000) ^ 2
    - 0.0447 * ((p.east - 600000) / 1000000) ^ 2 * ((p.north - 200000) / 1000000)
    - 0.0140 * ((p.north - 200000) / 1000000) ^ 3) * 100 / 36

/-- Spec formula for the altitude computed by `Lv03::to_wgs84`:
`altitude + 49.55 − 12.6·y − 22.64·x`. -/
def wgs_alt_spec (p : Lv03) : ℚ :=
  p.altitude + 49.55 - 12.6 * ((p.east - 600000) / 1000000)
    - 22.64 * ((p.north - 200000) / 1000000)

/-! ## A comparison model with NaN

`Lv03::new` compares `f64` values with `<` and `>`.  In IEEE 754 every
ordered comparison involving a NaN is false.  `Fl` models an `f64` that
is either NaN or an exact real (rational) value, with exactly that
comparison semantics, and `Lv03.newF` repeats the branch structure of
`Lv03::new` over it. -/

/-- A floating-point input: NaN or a (finite) real value. -/
inductive Fl where
  | nan : Fl
  | fin : ℚ → Fl
  deriving DecidableEq, Repr

/-- IEEE ordered less-than: false whenever either operand is NaN. -/
def Fl.lt : Fl → Fl → Bool
  | Fl.fin a, Fl.fin b => decide (a < b)
  | _, _ => false

/-- `Lv03::new` over the NaN-aware comparison model; `a > b` of the
source is rendered as `Fl.lt b a`, both false on NaN. -/
def Lv03.newF (north east altitude : Fl) : Option (Fl × Fl × Fl) :=
  if Fl.lt north (Fl.fin 70000) || Fl.lt east (Fl.fin 480000) then
    none
  else if Fl.lt (Fl.fin 300000) north || Fl.lt (Fl.fin 850000) east then
    none
  else if Fl.lt east north then
    none
  else
    some (north, east, altitude)

/-! ## Helper lemmas -/

/-- Inversion for `Lv03.new`: a successful construction returns the
arguments unchanged and they satisfy all bounds. -/
theorem lv03_new_some_iff (n e a : ℚ) (p : Lv03) :
    Lv03.new n e a = some p ↔
      (p = ⟨n, e, a⟩ ∧ 70000 ≤ n ∧ 480000 ≤ e ∧ n ≤ 300000 ∧ e ≤ 850000 ∧ n ≤ e) := by
  unfold Lv03.new
  split_ifs with h1 h2 h3
  · simp only [reduceCtorEq, false_iff]
    rintro ⟨-, hb1, hb2, hb3, hb4, hb5⟩
    rcases h1 with h | h <;> linarith
  · simp only [reduceCtorEq, false_iff]
    rintro ⟨-, hb1, hb2, hb3, hb4, hb5⟩
    rcases h2 with h | h <;> linarith
  · simp only [reduceCtorEq, false_iff]
    rintro ⟨-, hb1, hb2, hb3, hb4, hb5⟩
    linarith
  · push_neg at h1 h2 h3
    simp only [Option.some.injEq]
    constructor
    · rintro rfl
      exact ⟨rfl, h1.1, h1.2, h2.1, h2.2, h3⟩
    · rintro ⟨rfl, -⟩
      rfl

/-- On real (non-NaN) inputs, the NaN-aware model agrees with the
rational model of `Lv03::new`. -/
theorem lv03_newF_fin (n e a : ℚ) :
    Lv03.newF (Fl.fin n) (Fl.fin e) (Fl.fin a) =
      (Lv03.new n e a).map (fun p => (Fl.fin p.north, Fl.fin p.east, Fl.fin p.altitude)) := by
  unfold Lv03.newF Lv03.new Fl.lt
  simp only [Bool.or_eq_true, decide_eq_true_eq, gt_iff_lt]
  split_ifs <;> simp

/-! ## Claims -/

/-- C1: `Lv03::new` returns `None` iff north < 70,000 or east < 480,000 or
north > 300,000 or east > 850,000 or north > east; every in-range input
with north ≤ east is accepted, the axis-swapped input (600000, 200000) is
rejected, and the altitude argument never affects acceptance. -/
theorem lv03_new_bounds :
    (∀ n e a : ℚ, Lv03.new n e a = none ↔
      (n < 70000 ∨ e < 480000 ∨ n > 300000 ∨ e > 850000 ∨ n > e)) ∧
    (∀ n e a : ℚ, 70000 ≤ n → n ≤ 300000 → 480000 ≤ e → e ≤ 850000 → n ≤ e →
      (Lv03.new n e a).isSome = true) ∧
    Lv03.new 600000 200000 500 = none ∧
    (∀ n e a b : ℚ, (Lv03.new n e a).isSome = (Lv03.new n e b).isSome) := by
  refine ⟨fun n e a => ?_, fun n e a h1 h2 h3 h4 h5 => ?_, by norm_num [Lv03.new], fun n e a b => ?_⟩
  · unfold Lv03.new
    split_ifs with h1 h2 h3
    · simp only [true_iff]
      tauto
    · simp only [true_iff]
      tauto
    · simp only [true_iff]
      tauto
    · push_neg at h1 h2 h3
      simp only [reduceCtorEq, false_iff]
      push_neg
      exact ⟨h1.1, h1.2, h2.1, h2.2, h3⟩
  · unfold Lv03.new
    split_ifs with hc1 hc2 hc3
    · rcases hc1 with h | h <;> linarith
    · rcases hc2 with h | h <;> linarith
    · linarith
    · rfl
  · unfold Lv03.new
    split_ifs <;> rfl

/-- C1 witness: a concrete in-range input is accepted. -/
theorem lv03_new_bounds_witness :
    (Lv03.new 200000 600000 500).isSome = true :=
  lv03_new_bounds.2.1 200000 600000 500 (by norm_num) (by norm_num) (by norm_num)
    (by norm_num) (by norm_num)

/-- C2: `Wgs84::to_lv03` computes the spec's phi/lambda auxiliary values,
evaluates the fixed degree-3 polynomials, shifts by 2,000,000 / 1,000,000,
applies the altitude formula, and delegates to `Lv03::new` — its only
error path. -/
theorem to_lv03_eq_spec (s : Wgs84) :
    s.to_lv03 = Lv03.new (lv03_north_spec s) (lv03_east_spec s) (lv03_alt_spec s) := by
  unfold Wgs84.to_lv03 lv03_north_spec lv03_east_spec lv03_alt_spec
  ring_nf

/-- C2 witness: the spec-side and source-side computations agree at a
concrete coordinate. -/
theorem to_lv03_eq_spec_witness :
    Wgs84.to_lv03 ⟨7.44417, 46.94658, 542.8⟩ =
      Lv03.new (lv03_north_spec ⟨7.44417, 46.94658, 542.8⟩)
        (lv03_east_spec ⟨7.44417, 46.94658, 542.8⟩)
        (lv03_alt_spec ⟨7.44417, 46.94658, 542.8⟩) :=
  to_lv03_eq_spec ⟨7.44417, 46.94658, 542.8⟩

/-- C3: `Lv03::to_wgs84` is total and computes exactly the spec's
longitude, latitude (both scaled by 100/36) and altitude formulas; the
`Lv95` projection and the frame shifts are likewise total, `Lv95`'s being
the shift composed with the `Lv03` projection. -/
theorem to_wgs84_eq_spec :
    (∀ p : Lv03, p.to_wgs84 =
      { longitude := wgs_longitude_spec p, latitude := wgs_latitude_spec p,
        altitude := wgs_alt_spec p }) ∧
    (∀ q : Lv95, q.to_wgs84 =
      { longitude := wgs_longitude_spec (Lv03.fromLv95 q),
        latitude := wgs_latitude_spec (Lv03.fromLv95 q),
        altitude := wgs_alt_spec (Lv03.fromLv95 q) }) := by
  have h : ∀ p : Lv03, p.to_wgs84 =
      { longitude := wgs_longitude_spec p, latitude := wgs_latitude_spec p,
        altitude := wgs_alt_spec p } := by
    intro p
    unfold Lv03.to_wgs84 wgs_longitude_spec wgs_latitude_spec wgs_alt_spec
    simp only [Wgs84.mk.injEq]
    refine ⟨by ring_nf, by ring_nf, by ring_nf⟩
  exact ⟨h, fun q => h (Lv03.fromLv95 q)⟩

/-- C4: the Lv03→Lv95 shift adds exactly 1,000,000 north and 2,000,000
east with unchanged altitude, the inverse subtracts them, and for every
constructed Lv03 the round trip has squared distance below 0.001. -/
theorem lv95_shift_exact :
    (∀ p : Lv03, Lv95.fromLv03 p =
      { north := p.north + 1000000, east := p.east + 2000000, altitude := p.altitude }) ∧
    (∀ q : Lv95, Lv03.fromLv95 q =
      { north := q.north - 1000000, east := q.east - 2000000, altitude := q.altitude }) ∧
    (∀ n e a : ℚ, ∀ p : Lv03, Lv03.new n e a = some p →
      Lv03.distance_squared p (Lv03.fromLv95 (Lv95.fromLv03 p)) < 0.001) := by
  refine ⟨fun p => rfl, fun q => rfl, fun n e a p _ => ?_⟩
  have h0 : Lv03.distance_squared p (Lv03.fromLv95 (Lv95.fromLv03 p)) = 0 := by
    unfold Lv03.distance_squared Lv03.fromLv95 Lv95.fromLv03
    ring_nf
  rw [h0]
  norm_num

/-- C4 witness: the round trip at a concrete constructed point. -/
theorem lv95_shift_exact_witness :
    Lv03.distance_squared ⟨200000, 600000, 500⟩
      (Lv03.fromLv95 (Lv95.fromLv03 ⟨200000, 600000, 500⟩)) < 0.001 :=
  lv95_shift_exact.2.2 200000 600000 500 ⟨200000, 600000, 500⟩ (by norm_num [Lv03.new])

/-- C5 counterexample: the corner point (north 70,000, east 480,000) is a
valid Lv03 — `Lv03::new` accepts it — yet its `to_wgs84().to_lv03()`
round trip returns `None` (the re-projected easting falls below 480,000),
refuting the claim that the round trip yields a point for every valid
input. -/
theorem wgs_roundtrip_fails_at_corner :
    Lv03.new 70000 480000 500 = some ⟨70000, 480000, 500⟩ ∧
    Wgs84.to_lv03 (Lv03.to_wgs84 ⟨70000, 480000, 500⟩) = none := by
  constructor
  · norm_num [Lv03.new]
  · norm_num [Wgs84.to_lv03, Lv03.to_wgs84, Lv03.new]

/-- C5 amended: at the two reference points of the test suite the
`to_wgs84().to_lv03()` round trip returns a point with squared distance
below 1.0; near the edge of the accepted region the round trip can
instead return `None`. -/
theorem wgs_roundtrip_at_refs :
    (Wgs84.to_lv03 (Lv03.to_wgs84 ⟨199498.43, 600421.43, 542.8⟩)).elim False
      (fun q => Lv03.distance_squared ⟨199498.43, 600421.43, 542.8⟩ q < 1) ∧
    (Wgs84.to_lv03 (Lv03.to_wgs84 ⟨100000, 700000, 542.8⟩)).elim False
      (fun q => Lv03.distance_squared ⟨100000, 700000, 542.8⟩ q < 1) := by
  constructor
  · norm_num [Wgs84.to_lv03, Lv03.to_wgs84, Lv03.new, Lv03.distance_squared, Option.elim]
  · norm_num [Wgs84.to_lv03, Lv03.to_wgs84, Lv03.new, Lv03.distance_squared, Option.elim]

/-- C6: at both reference pairs, `to_wgs84` matches the WGS84 reference
within 0.001° per angular axis, and `to_lv03` on the WGS84 reference
returns a point within 2 m per planar axis of the LV03 reference. -/
theorem reference_pairs_match :
    |(Lv03.to_wgs84 ⟨199498.43, 600421.43, 542.8⟩).longitude - 7.44417| < 0.001 ∧
    |(Lv03.to_wgs84 ⟨199498.43, 600421.43, 542.8⟩).latitude - 46.94658| < 0.001 ∧
    (Wgs84.to_lv03 ⟨7.44417, 46.94658, 542.8⟩).elim False
      (fun q => |q.east - 600421.43| < 2 ∧ |q.north - 199498.43| < 2) ∧
    |(Lv03.to_wgs84 ⟨100000, 700000, 542.8⟩).longitude - 8.730497076| < 0.001 ∧
    |(Lv03.to_wgs84 ⟨100000, 700000, 542.8⟩).latitude - 46.044130339| < 0.001 ∧
    (Wgs84.to_lv03 ⟨8.730497076, 46.044130339, 542.8⟩).elim False
      (fun q => |q.east - 700000| < 2 ∧ |q.north - 100000| < 2) := by
  refine ⟨?_, ?_, ?_, ?_, ?_, ?_⟩ <;>
    norm_num [Wgs84.to_lv03, Lv03.to_wgs84, Lv03.new, Option.elim, abs_lt]

/-- C7: `Lv95::new` runs the Lv03 validity check on the unshifted
arguments and shifts on success, so it succeeds exactly when `Lv03::new`
does and every constructed Lv95 lies in
[1,070,000, 1,300,000] × [2,480,000, 2,850,000]. -/
theorem lv95_new_delegates :
    (∀ n e a : ℚ, Lv95.new n e a = (Lv03.new n e a).map Lv95.fromLv03) ∧
    (∀ n e a : ℚ, (Lv95.new n e a).isSome = (Lv03.new n e a).isSome) ∧
    (∀ n e a : ℚ, ∀ q : Lv95, Lv95.new n e a = some q →
      1070000 ≤ q.north ∧ q.north ≤ 1300000 ∧ 2480000 ≤ q.east ∧ q.east ≤ 2850000) := by
  have hmap : ∀ n e a : ℚ, Lv95.new n e a = (Lv03.new n e a).map Lv95.fromLv03 := by
    intro n e a
    unfold Lv95.new
    cases Lv03.new n e a <;> rfl
  refine ⟨hmap, fun n e a => ?_, fun n e a q hq => ?_⟩
  · rw [hmap]
    cases Lv03.new n e a <;> rfl
  · rw [hmap] at hq
    cases hp : Lv03.new n e a with
    | none => rw [hp] at hq; exact absurd hq (by simp)
    | some p =>
      rw [hp] at hq
      obtain ⟨rfl, h1, h2, h3, h4, -⟩ := (lv03_new_some_iff n e a p).mp hp
      rw [Option.map_some'] at hq
      obtain rfl := Option.some.inj hq
      refine ⟨?_, ?_, ?_, ?_⟩
      · show (1070000 : ℚ) ≤ n + 1000000
        linarith
      · show n + 1000000 ≤ (1300000 : ℚ)
        linarith
      · show (2480000 : ℚ) ≤ e + 2000000
        linarith
      · show e + 2000000 ≤ (2850000 : ℚ)
        linarith

/-- C7 witness: a concrete construction lands in the shifted bounds. -/
theorem lv95_new_delegates_witness :
    1070000 ≤ (Lv95.mk 1200000 2600000 500).north ∧
      (Lv95.mk 1200000 2600000 500).north ≤ 1300000 ∧
      2480000 ≤ (Lv95.mk 1200000 2600000 500).east ∧
      (Lv95.mk 1200000 2600000 500).east ≤ 2850000 :=
  lv95_new_delegates.2.2 200000 600000 500 ⟨1200000, 2600000, 500⟩
    (by norm_num [Lv95.new, Lv03.new, Lv95.fromLv03])

/-- C8: `distance_squared` is the squared 3D Euclidean distance, and at
the two documented points it is exactly 4. -/
theorem distance_squared_spec :
    (∀ p q : Lv03, Lv03.distance_squared p q =
      (p.north - q.north) ^ 2 + (p.east - q.east) ^ 2 + (p.altitude - q.altitude) ^ 2) ∧
    Lv03.distance_squared ⟨200000, 600000, 500⟩ ⟨200002, 600000, 500⟩ = 4 := by
  constructor
  · intro p q
    unfold Lv03.distance_squared
    ring
  · norm_num [Lv03.distance_squared]

/-- C9: because validation uses IEEE ordered comparisons, which are all
false on NaN, `Lv03::new` accepts NaN coordinates: both
`new(NaN, 600000, 0)` and `new(200000, NaN, 0)` return `Some`. -/
theorem lv03_new_accepts_nan :
    (Lv03.newF Fl.nan (Fl.fin 600000) (Fl.fin 0)).isSome = true ∧
    (Lv03.newF (Fl.fin 200000) Fl.nan (Fl.fin 0)).isSome = true := by
  constructor
  · norm_num [Lv03.newF, Fl.lt]
  · norm_num [Lv03.newF, Fl.lt]

/-- C10: every constructed Lv03 satisfies east − north ≥ 180,000, so the
north > east branch can never be the deciding rejection once the range
checks pass, and the margin is preserved by the Lv95 round trip, which
only shifts north and east by fixed offsets. -/
theorem lv03_margin_invariant :
    (∀ n e a : ℚ, ∀ p : Lv03, Lv03.new n e a = some p →
      180000 ≤ p.east - p.north ∧ p.north < p.east ∧
      (Lv95.fromLv03 p).east - (Lv95.fromLv03 p).north = p.east - p.north + 1000000 ∧
      Lv03.fromLv95 (Lv95.fromLv03 p) = p) ∧
    (∀ n e : ℚ, ¬(n < 70000 ∨ e < 480000) → ¬(n > 300000 ∨ e > 850000) → ¬(n > e)) := by
  constructor
  · intro n e a p hp
    obtain ⟨rfl, h1, h2, h3, h4, h5⟩ := (lv03_new_some_iff n e a p).mp hp
    refine ⟨show (180000 : ℚ) ≤ e - n by linarith, show n < e by linarith, ?_, ?_⟩
    · unfold Lv95.fromLv03
      ring_nf
    · unfold Lv03.fromLv95 Lv95.fromLv03
      simp only [Lv03.mk.injEq]
      norm_num
  · intro n e h1 h2
    push_neg at h1 h2 ⊢
    linarith [h1.2, h2.1]

/-- C10 witness: the invariant at a concrete constructed point. -/
theorem lv03_margin_invariant_witness :
    180000 ≤ (Lv03.mk 200000 600000 500).east - (Lv03.mk 200000 600000 500).north :=
  ((lv03_margin_invariant.1 200000 600000 500 ⟨200000, 600000, 500⟩
    (by norm_num [Lv03.new]))).1

end LvSpec
